import Mathlib

/-!
Verification development for the alkosto-frontend client core.

Shallow embedding of the three logic modules of the repository:
  - src/lib/messageProtocol.ts  (intent / context heuristic)
  - src/lib/chatService.ts      (retry / backoff request client)
  - src/lib/api.ts              (session and chat-history storage helper)

JavaScript strings are modelled as `List Char`; `String.prototype.includes`
is substring containment; `toLowerCase` is ASCII case folding (all trigger
literals in the source are ASCII).  Numbers that the source only ever uses
as non-negative integers (timestamps, status codes, prices, turn counts,
delays in milliseconds) are modelled as `Nat`; intent confidences, which the
source compares against decimal literals, are modelled as `Rat`.
-/

namespace Alkosto

/-- JS strings as lists of characters. -/
abbrev Str := List Char

/-- String literal helper. -/
def str (s : String) : Str := s.data

/-- Model of `haystack.includes(needle)` (JS substring containment):
true iff `needle` occurs contiguously inside `haystack`. -/
def includes (needle : Str) : Str → Bool
  | [] => decide (needle = [])
  | c :: rest => needle.isPrefixOf (c :: rest) || includes needle rest

/-- Model of `s.toLowerCase()` restricted to ASCII (every keyword the
source compares against is ASCII). -/
def toLowerStr (s : Str) : Str := s.map Char.toLower

theorem includes_iff (needle hay : Str) : includes needle hay = true ↔ needle <:+: hay := by
  induction hay with
  | nil =>
    simp [includes, List.infix_nil]
  | cons c rest ih =>
    simp [includes, List.infix_cons_iff, ih, List.isPrefixOf_iff_prefix]

/- ## messageProtocol.ts : data model -/

/-- `UserIntent.primary` values. -/
inductive Primary where
  | search | compare | question | purchase | support
  deriving DecidableEq

/-- Extracted price range (entities.priceRange). -/
structure PriceRange where
  min : Nat
  max : Nat
  deriving DecidableEq

/-- `UserIntent.entities`.  Fields the analyzer never assigns stay `none`,
mirroring `undefined` in the source object literal. -/
structure Entities where
  products : Option (List Str)
  brands : Option (List Str)
  features : Option (List Str)
  priceRange : Option PriceRange
  category : Option Str
  deriving DecidableEq

/-- `UserIntent` as produced by `analyzeUserIntent` (the optional
`secondary` field is never assigned by the source and is omitted). -/
structure UserIntent where
  primary : Primary
  confidence : ℚ
  entities : Entities
  deriving DecidableEq

/-- Fixed category literal list from `analyzeUserIntent`. -/
def categories : List Str :=
  [str "televisor", str "celular", str "laptop", str "gaming", str "audio",
   str "electrodomestico"]

/-- Fixed brand literal list from `analyzeUserIntent`. -/
def brandsList : List Str :=
  [str "samsung", str "lg", str "sony", str "apple", str "lenovo", str "hp",
   str "dell"]

/- ### The price regex  /(\d{1,3}(?:[.,]\d{3})*)/g

The scanner below reproduces the JS global-match semantics of this regex:
scan left to right; at the first digit, greedily take up to three digits,
then greedily take whole groups of a separator followed by exactly three
digits; emit the match and continue after it.  The `fuel` arguments make
the recursions structural; callers pass the length of the scanned list,
which is always sufficient because every step consumes at least one
character. -/

/-- Take up to `k` leading decimal digits; returns (taken, rest). -/
def takeDigitsUpTo : Nat → Str → Str × Str
  | 0, s => ([], s)
  | _ + 1, [] => ([], [])
  | k + 1, c :: rest =>
    if c.isDigit then
      let p := takeDigitsUpTo k rest
      (c :: p.1, p.2)
    else ([], c :: rest)

/-- Greedily take groups matching `[.,]\d{3}`; returns (taken, rest). -/
def takeSepGroups : Nat → Str → Str × Str
  | _ + 1, sep :: d1 :: d2 :: d3 :: rest =>
    if (sep == '.' || sep == ',') && d1.isDigit && d2.isDigit && d3.isDigit then
      let p := takeSepGroups rest.length rest
      (sep :: d1 :: d2 :: d3 :: p.1, p.2)
    else ([], sep :: d1 :: d2 :: d3 :: rest)
  | _, s => ([], s)

/-- All matches of the price regex, left to right (model of
`text.match(/(\d{1,3}(?:[.,]\d{3})*)/g)`, `null` becoming `[]`). -/
def scanPrices : Nat → Str → List Str
  | 0, _ => []
  | _ + 1, [] => []
  | fuel + 1, c :: rest =>
    if c.isDigit then
      let ds := takeDigitsUpTo 2 rest
      let gs := takeSepGroups ds.2.length ds.2
      (c :: (ds.1 ++ gs.1)) :: scanPrices fuel gs.2
    else scanPrices fuel rest

/-- Decimal value of a digit character. -/
def digitChar (c : Char) : Nat := c.toNat - 48

/-- Decimal value of a digit string. -/
def digitsToNat (s : Str) : Nat := s.foldl (fun n c => n * 10 + digitChar c) 0

/-- Model of `parseInt` on the strings reaching it in this code base:
parse the leading run of digits (`none` for the NaN case of no digits). -/
def parseIntLeading (s : Str) : Option Nat :=
  let ds := s.takeWhile Char.isDigit
  if ds = [] then none else some (digitsToNat ds)

/-- `parseInt(p.replace(/[.,]/g, ''))` for a regex match `p`.  Every match
contains at least one digit, so the parse cannot fail; the `getD 0`
fallback corresponds to the unreachable NaN case. -/
def parsePrice (p : Str) : Nat :=
  (parseIntLeading (p.filter (fun c => !(c == '.' || c == ',')))).getD 0

/-- `MessageProtocolService.analyzeUserIntent` (messageProtocol.ts 166-213). -/
def analyzeUserIntent (input : Str) : UserIntent :=
  let text := toLowerStr input
  let pc : Primary × ℚ :=
    if includes (str "compar") text || includes (str "diferencia") text
        || includes (str "vs") text then
      (Primary.compare, 0.9)
    else if includes (str "comprar") text || includes (str "precio") text
        || includes (str "carrito") text then
      (Primary.purchase, 0.85)
    else if includes (str "?") text || includes (str "como") text
        || includes (str "que es") text then
      (Primary.question, 0.8)
    else if includes (str "busco") text || includes (str "necesito") text
        || includes (str "quiero") text then
      (Primary.search, 0.9)
    else
      (Primary.search, 0.7)
  let category := categories.find? (fun cat => includes cat text)
  let brandsFound := brandsList.filter (fun b => includes b text)
  let priceStrs := scanPrices text.length text
  let prices := priceStrs.map parsePrice
  let priceRange : Option PriceRange :=
    match prices with
    | [] => none
    | p :: ps => some { min := ps.foldl Nat.min p, max := ps.foldl Nat.max p }
  { primary := pc.1
    confidence := pc.2
    entities :=
      { products := none
        brands := some brandsFound
        features := none
        priceRange := priceRange
        category := category } }

/- ## messageProtocol.ts : conversation context -/

/-- `conversationState.userSatisfaction` values. -/
inductive Satisfaction where
  | high | medium | low
  deriving DecidableEq

/-- `conversationState.lastAgentAction` values.  The TS type annotation
lists only search/question/recommendation/clarification, but
`determineAgentAction` actually returns the string `comparison` for a
compare intent, so the model includes that value. -/
inductive AgentAction where
  | search | question | recommendation | clarification | comparison
  deriving DecidableEq

/-- `conversationState.progressTowards` values. -/
inductive Progress where
  | purchase | research | comparison
  deriving DecidableEq

/-- `currentSearch.phase` values. -/
inductive Phase where
  | discovery | narrowing | comparison | decision
  deriving DecidableEq

/-- `userProfile.shoppingBehavior` values. -/
inductive ShoppingBehavior where
  | budgetConscious | premiumSeeker | featureFocused
  deriving DecidableEq

/-- `ConversationContext.userProfile`. -/
structure UserProfile where
  preferredBrands : Option (List Str) := none
  budgetRange : Option PriceRange := none
  previousPurchases : Option (List Str) := none
  shoppingBehavior : Option ShoppingBehavior := none
  deriving DecidableEq

/-- The `Record<string, any>` criteria map: only the four keys the source
ever writes are modelled, each `none` when the key is absent. -/
structure Criteria where
  presupuestoMax : Option Nat := none
  presupuestoMin : Option Nat := none
  marcasPreferidas : Option (List Str) := none
  usoPrincipal : Option Str := none
  deriving DecidableEq

/-- `ConversationContext.currentSearch`. -/
structure CurrentSearch where
  category : Option Str
  criteria : Criteria
  phase : Phase
  missingInfo : List Str
  deriving DecidableEq

/-- `ConversationContext.conversationState`. -/
structure ConversationState where
  turnCount : Nat
  lastAgentAction : AgentAction
  userSatisfaction : Option Satisfaction
  progressTowards : Progress
  deriving DecidableEq

/-- `ConversationContext.productsContext`. -/
structure ProductsContext where
  lastSearchResults : Nat
  viewedProducts : List Str
  comparedProducts : List Str
  addedToCart : List Str
  deriving DecidableEq

/-- `ConversationContext`. -/
structure ConversationContext where
  userProfile : Option UserProfile
  currentSearch : Option CurrentSearch
  conversationState : ConversationState
  productsContext : Option ProductsContext
  deriving DecidableEq

/-- `determineAgentAction` (messageProtocol.ts 329-336). -/
def determineAgentAction (intent : UserIntent) : AgentAction :=
  match intent.primary with
  | Primary.search => AgentAction.search
  | Primary.compare => AgentAction.comparison
  | Primary.question => AgentAction.clarification
  | _ => AgentAction.recommendation

/-- `determineProgress` (messageProtocol.ts 338-342).  Note the source
tests `input.includes('comprar')` on the raw (not lower-cased) input. -/
def determineProgress (intent : UserIntent) (input : Str) : Progress :=
  if intent.primary = Primary.purchase ∨ includes (str "comprar") input = true then
    Progress.purchase
  else if intent.primary = Primary.compare then Progress.comparison
  else Progress.research

/-- `assessSatisfaction` (messageProtocol.ts 344-352). -/
def assessSatisfaction (input : Str) : Satisfaction :=
  let positive := [str "bien", str "perfecto", str "excelente", str "gracias", str "bueno"]
  let negative := [str "no", str "mal", str "problema", str "error", str "confund"]
  let text := toLowerStr input
  if positive.any (fun word => includes word text) then Satisfaction.high
  else if negative.any (fun word => includes word text) then Satisfaction.low
  else Satisfaction.medium

/-- `determineSearchPhase` (messageProtocol.ts 354-359). -/
def determineSearchPhase (turnCount : Nat) : Phase :=
  if turnCount ≤ 2 then Phase.discovery
  else if turnCount ≤ 4 then Phase.narrowing
  else if turnCount ≤ 6 then Phase.comparison
  else Phase.decision

/-- `extractCriteria` (messageProtocol.ts 361-385). -/
def extractCriteria (input : Str) (intent : UserIntent) : Criteria :=
  let c1 : Criteria :=
    match intent.entities.priceRange with
    | some pr => { presupuestoMax := some pr.max, presupuestoMin := some pr.min }
    | none => {}
  let c2 : Criteria :=
    match intent.entities.brands with
    | some bs => if bs ≠ [] then { c1 with marcasPreferidas := some bs } else c1
    | none => c1
  let text := toLowerStr input
  if includes (str "trabajo") text || includes (str "oficina") text then
    { c2 with usoPrincipal := some (str "trabajo") }
  else if includes (str "gaming") text || includes (str "juego") text then
    { c2 with usoPrincipal := some (str "gaming") }
  else if includes (str "estudio") text || includes (str "universidad") text then
    { c2 with usoPrincipal := some (str "estudio") }
  else c2

/-- Truthiness of `!intent.entities.features?.length`: true when the
features entity is absent or an empty list. -/
def featuresAbsentOrEmpty (e : Entities) : Bool :=
  match e.features with
  | none => true
  | some fs => fs.isEmpty

/-- Truthiness of `!context.productsContext?.lastSearchResults`: true when
the products context is absent or reports zero results. -/
def noSearchResults (context : ConversationContext) : Bool :=
  match context.productsContext with
  | none => true
  | some pc => pc.lastSearchResults == 0

/-- `identifyMissingInfo` (messageProtocol.ts 387-397); the three pushes in
source order. -/
def identifyMissingInfo (intent : UserIntent) : List Str :=
  (if intent.entities.category = none then [str "categoria"] else []) ++
  (if intent.entities.priceRange = none then [str "presupuesto"] else []) ++
  (if intent.primary = Primary.search ∧ featuresAbsentOrEmpty intent.entities = true then
    [str "uso_principal"]
  else [])

/-- `updateConversationContext` (messageProtocol.ts 218-245).  The object
spread `{...previousContext}` carries the previous user profile, search and
products contexts over (all absent when there is no previous context); the
conversation state is rebuilt each turn; the search context is overwritten
only for a search intent. -/
def updateConversationContext (userInput : Str) (intent : UserIntent)
    (previousContext : Option ConversationContext) : ConversationContext :=
  let base : ConversationContext :=
    match previousContext with
    | none =>
      { userProfile := none, currentSearch := none, productsContext := none,
        conversationState :=
          { turnCount := 0, lastAgentAction := AgentAction.search,
            userSatisfaction := none, progressTowards := Progress.research } }
    | some p => p
  let newState : ConversationState :=
    { turnCount := (match previousContext with
        | none => 0
        | some p => p.conversationState.turnCount) + 1
      lastAgentAction := determineAgentAction intent
      progressTowards := determineProgress intent userInput
      userSatisfaction := some (assessSatisfaction userInput) }
  let context := { base with conversationState := newState }
  if intent.primary = Primary.search then
    { context with
      currentSearch := some
        { category := intent.entities.category
          criteria := extractCriteria userInput intent
          phase := determineSearchPhase context.conversationState.turnCount
          missingInfo := identifyMissingInfo intent } }
  else context

/-- `missingInfo.join(', ')`. -/
def joinComma (l : List Str) : Str := (l.intersperse (str ", ")).flatten

/-- `generateAgentInstructions` (messageProtocol.ts 310-326); the three
conditional pushes in source order.  The optional-chaining truthiness test
`context.currentSearch?.missingInfo.length` is false when the search
context is absent or its missing-info list is empty, and likewise
`!context.productsContext?.lastSearchResults` is true when the products
context is absent or reports zero results. -/
def generateAgentInstructions (context : ConversationContext)
    (intent : UserIntent) : List Str :=
  (match context.currentSearch with
   | some cs =>
     if intent.primary = Primary.search ∧ cs.missingInfo ≠ [] then
       [str "ASK_FOR: " ++ joinComma cs.missingInfo]
     else []
   | none => []) ++
  (if 5 < context.conversationState.turnCount ∧ noSearchResults context = true then
    [str "SUGGEST_ALTERNATIVE_APPROACH"]
  else []) ++
  (if intent.confidence < 0.6 then [str "CLARIFY_USER_INTENT"] else [])

/- ## chatService.ts : error classification and retry loop -/

/-- `ErrorContext.type` values. -/
inductive ErrType where
  | network | server | rate_limit | validation | unknown
  deriving DecidableEq

/-- `ErrorContext` (chatService.ts 8-14). -/
structure ErrorContext where
  type : ErrType
  statusCode : Option Nat
  retryable : Bool
  userMessage : Str
  technicalMessage : Str
  deriving DecidableEq

/-- A thrown JS value: either an `Error` instance carrying its message, or
any other thrown value (stringified). -/
inductive JSError where
  | mk (message : Str)
  | other (value : Str)
  deriving DecidableEq

/-- Decimal digits of a number (model of JS number-to-string for the
`HTTP_${status}` template). -/
def natToStr (n : Nat) : Str := Nat.toDigits 10 n

/-- The message of the error thrown by `makeRequest` for a non-ok HTTP
response: the template literal `HTTP_${response.status}: ${response.statusText}`. -/
def httpErrorMessage (status : Nat) (statusText : Str) : Str :=
  str "HTTP_" ++ natToStr status ++ str ": " ++ statusText

/-- `message.split('HTTP_')[1]`: the text after the first occurrence of
the separator (`none` when the separator does not occur, in which case the
source would read `undefined`). -/
def splitAfterFirst (pat : Str) : Str → Option Str
  | [] => if pat = [] then some [] else none
  | c :: rest =>
    if pat.isPrefixOf (c :: rest) then some ((c :: rest).drop pat.length)
    else splitAfterFirst pat rest

/-- `ChatService.analyzeError` (chatService.ts 100-195): the ordered
classification rules.  `parseInt(message.split('HTTP_')[1])` is modelled by
`splitAfterFirst` plus `parseIntLeading`; when it yields no number the
source computes NaN, every numeric comparison on it is false, and the
`default` switch arm applies with `retryable: statusCode >= 500` false. -/
def analyzeError (error : JSError) : ErrorContext :=
  match error with
  | JSError.other v =>
    { type := ErrType.unknown, statusCode := none, retryable := false,
      userMessage := str "❓ Error inesperado. Intenta reformular tu pregunta.",
      technicalMessage := v }
  | JSError.mk message =>
    if includes (str "fetch") message || includes (str "NetworkError") message then
      { type := ErrType.network, statusCode := none, retryable := true,
        userMessage := str "🌐 Sin conexión a internet. Verifica tu red y reintenta.",
        technicalMessage := message }
    else if includes (str "HTTP_") message then
      match (splitAfterFirst (str "HTTP_") message).bind parseIntLeading with
      | some statusCode =>
        if statusCode = 429 then
          { type := ErrType.rate_limit, statusCode := some statusCode, retryable := true,
            userMessage := str "⏰ Demasiadas consultas. Espera un momento antes de continuar.",
            technicalMessage := message }
        else if 500 ≤ statusCode then
          { type := ErrType.server, statusCode := some statusCode, retryable := true,
            userMessage := str "🔧 Problema temporal en nuestros servidores. Reintentando...",
            technicalMessage := message }
        else if statusCode = 400 then
          { type := ErrType.validation, statusCode := some statusCode, retryable := false,
            userMessage := str "📝 Mensaje no válido. Intenta reformular tu pregunta.",
            technicalMessage := message }
        else if statusCode = 404 then
          { type := ErrType.server, statusCode := some statusCode, retryable := false,
            userMessage := str "🔍 Servicio no disponible. Contacta al soporte técnico.",
            technicalMessage := message }
        else
          { type := ErrType.server, statusCode := some statusCode,
            retryable := decide (500 ≤ statusCode),
            userMessage := str "❌ Error del servidor (" ++ natToStr statusCode
              ++ str "). Intenta de nuevo.",
            technicalMessage := message }
      | none =>
        { type := ErrType.server, statusCode := none, retryable := false,
          userMessage := str "❌ Error del servidor (NaN). Intenta de nuevo.",
          technicalMessage := message }
    else if includes (str "aborted") message || includes (str "timeout") message then
      { type := ErrType.network, statusCode := none, retryable := true,
        userMessage := str "⏱️ La consulta tardó demasiado. Reintentando con una conexión más rápida...",
        technicalMessage := message }
    else if includes (str "INVALID_RESPONSE") message then
      { type := ErrType.validation, statusCode := none, retryable := false,
        userMessage := str "🔄 Respuesta del servidor inválida. El equipo técnico fue notificado.",
        technicalMessage := message }
    else
      { type := ErrType.unknown, statusCode := none, retryable := false,
        userMessage := str "❓ Error inesperado. Intenta reformular tu pregunta.",
        technicalMessage := message }

/-- The outcome of one `makeRequest` attempt: the promise resolves with a
valid backend response, or rejects with a thrown error (non-ok status,
invalid body, network failure, abort). -/
inductive Outcome where
  | ok
  | err (e : JSError)
  deriving DecidableEq

/-- Observable result of one `sendMessage` call: whether it resolved with
a success payload, the error context of the structured error response (if
any), the number of attempts made, the backoff delays awaited (in
milliseconds, in order), and the value of `this.retryCount` after the
call. -/
structure SendResult where
  success : Bool
  error : Option ErrorContext
  attempts : Nat
  delaysMs : List Nat
  finalRetryCount : Nat
  deriving DecidableEq

/-- The rest of the attempt sequence as seen after one failed attempt. -/
def shiftTransport (transport : Nat → Outcome) : Nat → Outcome :=
  fun i => transport (i + 1)

/-- `ChatService.sendMessage` (chatService.ts 24-59), as a function of the
attempt outcomes.  `transport i` is what attempt number `i` of this
logical call does; `rc` is the entry value of the per-instance mutable
`this.retryCount`.  On success the counter resets to 0; on a retryable
failure with `rc < cfgRetries` the counter increments and, after a
`2^retryCount * 1000` ms backoff, the call recurses; otherwise the
structured error response is returned with the counter left at `rc`.

`fuel` only makes the recursion structural: entering with
`fuel = cfgRetries - rc` (as `sendMessage` does), the retry branch keeps
the invariant `fuel = cfgRetries - rc ≥ 1`, so the inner out-of-fuel arm
is unreachable. -/
def sendMessageGo (cfgRetries rc fuel : Nat) (transport : Nat → Outcome) : SendResult :=
  match transport 0 with
  | Outcome.ok =>
    { success := true, error := none, attempts := 1, delaysMs := [],
      finalRetryCount := 0 }
  | Outcome.err e =>
    let errorContext := analyzeError e
    if errorContext.retryable = true ∧ rc < cfgRetries then
      match fuel with
      | 0 =>
        { success := false, error := some errorContext, attempts := 1,
          delaysMs := [], finalRetryCount := rc }
      | fuel' + 1 =>
        let rest := sendMessageGo cfgRetries (rc + 1) fuel' (shiftTransport transport)
        { success := rest.success, error := rest.error,
          attempts := rest.attempts + 1,
          delaysMs := (2 ^ (rc + 1) * 1000) :: rest.delaysMs,
          finalRetryCount := rest.finalRetryCount }
    else
      { success := false, error := some errorContext, attempts := 1,
        delaysMs := [], finalRetryCount := rc }

/-- One `sendMessage` call on a `ChatService` whose config allows
`cfgRetries` retries, entered with retry counter `rc`. -/
def sendMessage (cfgRetries rc : Nat) (transport : Nat → Outcome) : SendResult :=
  sendMessageGo cfgRetries rc (cfgRetries - rc) transport

/-- A sequence of `sendMessage` calls on the same `ChatService` instance:
the retry counter left by each call is the entry counter of the next. -/
def runCalls (cfgRetries : Nat) : Nat → List (Nat → Outcome) → List SendResult
  | _, [] => []
  | rc, t :: ts =>
    let r := sendMessage cfgRetries rc t
    r :: runCalls cfgRetries r.finalRetryCount ts

/- ## api.ts : session and chat-history storage -/

/-- `Message.sender` values. -/
inductive Sender where
  | user | assistant | system
  deriving DecidableEq

/-- Backend confidence labels. -/
inductive ConfidenceLabel where
  | high | medium | low
  deriving DecidableEq

/-- `BackendProduct` (api.ts 2-12). -/
structure BackendProduct where
  id : Str
  title : Str
  price : Str
  type : Str
  brand : Option Str
  features : Option Str
  image : Option Str
  rating : Option Nat
  availability : Option Bool
  deriving DecidableEq

/-- `Message` (api.ts 26-36).  `timestamp` is a JS `Date`, modelled by its
epoch-millisecond value. -/
structure Message where
  id : Str
  text : Str
  sender : Sender
  timestamp : Nat
  confidence : Option ConfidenceLabel
  responseTime : Option Nat
  suggestions : Option (List Str)
  isError : Option Bool
  products : Option (List BackendProduct)
  deriving DecidableEq

/-- The chat-history record stored under `alkosto-chat-history`
(`{sessionId, messages, lastUpdated}`).  JSON serialisation of the plain
fields is the identity; a message timestamp is serialised by
`JSON.stringify` as its ISO-8601 string and revived by `new Date(...)`,
which per the JS `Date` semantics denotes the same millisecond instant, so
the stored timestamp is modelled by that instant. -/
structure StoredHistory where
  sessionId : Str
  messages : List Message
  lastUpdated : Nat
  deriving DecidableEq

/-- The browser local storage slots the module touches: the session-id
record under `alkosto-session-id` and the history record under
`alkosto-chat-history` (each `none` when the key is absent).  Storage is
assumed available (the unavailable-storage catch branches are out of
scope of the claims about a working round trip). -/
structure Storage where
  sessionId : Option Str
  history : Option StoredHistory
  deriving DecidableEq

/-- `AlkostoAPI.getSessionId` (api.ts 183-194): return the persisted id if
present, otherwise persist and return a freshly generated one.  `gen`
models the generated `session_${Date.now()}_${random}` value. -/
def getSessionId (gen : Str) (st : Storage) : Str × Storage :=
  match st.sessionId with
  | some s => (s, st)
  | none => (gen, { st with sessionId := some gen })

/-- `messages.slice(-50)`: the last 50 elements (all of them when there
are fewer). -/
def sliceLast50 (l : List Message) : List Message := l.drop (l.length - 50)

/-- `AlkostoAPI.saveChatHistory` (api.ts 51-63). -/
def saveChatHistory (gen : Str) (now : Nat) (messages : List Message)
    (st : Storage) : Storage :=
  let p := getSessionId gen st
  { p.2 with
    history := some
      { sessionId := p.1, messages := sliceLast50 messages, lastUpdated := now } }

/-- The per-message revival `{...msg, timestamp: new Date(msg.timestamp)}`
performed by `loadChatHistory`; on the instant model it rebuilds the same
message. -/
def reviveMessage (m : Message) : Message := { m with timestamp := m.timestamp }

/-- `AlkostoAPI.loadChatHistory` (api.ts 65-81): empty when no record is
stored; otherwise the revived messages when the stored session id equals
the current session id, and empty otherwise. -/
def loadChatHistory (gen : Str) (st : Storage) : List Message × Storage :=
  match st.history with
  | none => ([], st)
  | some h =>
    let p := getSessionId gen st
    if h.sessionId = p.1 then (h.messages.map reviveMessage, p.2)
    else ([], p.2)

/-- `AlkostoAPI.resetSession` (api.ts 200-209): persist a freshly
generated session id and delete the stored history record. -/
def resetSession (fresh : Str) (st : Storage) : Storage :=
  { st with sessionId := some fresh, history := none }

/- ## Claim theorems -/

/-- C1: any input whose lower-cased text contains a compare-trigger word
(`compar`, `diferencia` or `vs`) is classified with primary intent
`compare` and confidence 0.9, regardless of casing and regardless of any
other trigger words present, because the compare branch is evaluated
first. -/
theorem compare_trigger_wins (input : Str)
    (h : includes (str "compar") (toLowerStr input) = true ∨
         includes (str "diferencia") (toLowerStr input) = true ∨
         includes (str "vs") (toLowerStr input) = true) :
    (analyzeUserIntent input).primary = Primary.compare ∧
    (analyzeUserIntent input).confidence = 0.9 := by
  unfold analyzeUserIntent
  rcases h with h | h | h <;> simp [h]

/-- Witness for C1: an upper-cased compare trigger together with purchase
(`precio`, `carrito`) and search (`quiero`) triggers. -/
theorem compare_trigger_wins_wit :
    (analyzeUserIntent (str "Quiero COMPARAR precio y carrito")).primary = Primary.compare ∧
    (analyzeUserIntent (str "Quiero COMPARAR precio y carrito")).confidence = 0.9 :=
  compare_trigger_wins (str "Quiero COMPARAR precio y carrito") (Or.inl (by decide))

/-- The concrete input of C2. -/
def budgetInput : Str :=
  str "Busco un televisor Samsung con presupuesto de 1.500.000 a 2.000.000"

/-- C2: on the budget input, entity extraction finds category
`televisor`, brand list `[samsung]`, and price range 1500000-2000000
(the dot-separated digit groups are matched, separators stripped, and
min/max taken). -/
theorem entities_of_budget_input :
    (analyzeUserIntent budgetInput).entities.category = some (str "televisor") ∧
    (analyzeUserIntent budgetInput).entities.brands = some [str "samsung"] ∧
    (analyzeUserIntent budgetInput).entities.priceRange =
      some { min := 1500000, max := 2000000 } := by
  decide

/-- C3: the turn count of the context produced by the heuristic is the
previous turn count plus one (starting from 0 without a previous
context); for a search intent the produced search context carries the
phase computed from the new turn count; and the phase function maps turns
1-2 to discovery, 3-4 to narrowing, 5-6 to comparison and 7+ to
decision. -/
theorem turn_and_phase :
    (∀ input intent prev,
      (updateConversationContext input intent (some prev)).conversationState.turnCount
        = prev.conversationState.turnCount + 1) ∧
    (∀ input intent,
      (updateConversationContext input intent none).conversationState.turnCount = 1) ∧
    (∀ input intent prev, intent.primary = Primary.search →
      ∃ cs, (updateConversationContext input intent prev).currentSearch = some cs ∧
        cs.phase = determineSearchPhase
          ((updateConversationContext input intent prev).conversationState.turnCount)) ∧
    (determineSearchPhase 1 = Phase.discovery ∧ determineSearchPhase 2 = Phase.discovery) ∧
    (determineSearchPhase 3 = Phase.narrowing ∧ determineSearchPhase 4 = Phase.narrowing) ∧
    (determineSearchPhase 5 = Phase.comparison ∧ determineSearchPhase 6 = Phase.comparison) ∧
    (∀ n, determineSearchPhase (7 + n) = Phase.decision) := by
  refine ⟨?_, ?_, ?_, by decide, by decide, by decide, ?_⟩
  · intro input intent prev
    simp only [updateConversationContext]
    split <;> rfl
  · intro input intent
    simp only [updateConversationContext]
    split <;> rfl
  · intro input intent prev h
    refine ⟨{ category := intent.entities.category
              criteria := extractCriteria input intent
              phase := determineSearchPhase
                ((updateConversationContext input intent prev).conversationState.turnCount)
              missingInfo := identifyMissingInfo intent }, ?_, rfl⟩
    simp [updateConversationContext, h]
  · intro n
    unfold determineSearchPhase
    split_ifs <;> first | rfl | omega

/-- Witness for C3: the search-phase component applied to a concrete
search-intent turn with no previous context. -/
theorem turn_and_phase_wit :
    ∃ cs, (updateConversationContext (str "busco algo")
        (analyzeUserIntent (str "busco algo")) none).currentSearch = some cs ∧
      cs.phase = determineSearchPhase
        ((updateConversationContext (str "busco algo")
          (analyzeUserIntent (str "busco algo")) none).conversationState.turnCount) :=
  turn_and_phase.2.2.1 (str "busco algo") (analyzeUserIntent (str "busco algo")) none
    (by decide)

/-- The analyzer only ever assigns one of the four fixed confidence
constants. -/
theorem confidence_cases (input : Str) :
    (analyzeUserIntent input).confidence = 0.7 ∨
    (analyzeUserIntent input).confidence = 0.8 ∨
    (analyzeUserIntent input).confidence = 0.85 ∨
    (analyzeUserIntent input).confidence = 0.9 := by
  unfold analyzeUserIntent
  dsimp only
  split_ifs <;> norm_num

/-- The CLARIFY instruction string differs from the ASK_FOR instruction
for every missing-info list (the first characters differ). -/
theorem clarify_ne_askFor (x : Str) : str "CLARIFY_USER_INTENT" ≠ str "ASK_FOR: " ++ x := by
  intro h
  have hh := congrArg List.head? h
  rw [show (str "CLARIFY_USER_INTENT").head? = some 'C' from rfl] at hh
  rw [show (str "ASK_FOR: " ++ x).head? = some 'A' from rfl] at hh
  exact absurd hh (by decide)

/-- With confidence not below 0.6, `generateAgentInstructions` never emits
CLARIFY_USER_INTENT. -/
theorem clarify_not_mem (context : ConversationContext) (intent : UserIntent)
    (hc : ¬ intent.confidence < 0.6) :
    str "CLARIFY_USER_INTENT" ∉ generateAgentInstructions context intent := by
  unfold generateAgentInstructions
  intro hmem
  rw [if_neg hc] at hmem
  simp only [List.append_nil, List.mem_append] at hmem
  rcases hmem with hmem | hmem
  · rcases hcs : context.currentSearch with _ | cs <;> rw [hcs] at hmem
    · simp at hmem
    · dsimp only at hmem
      by_cases hif : intent.primary = Primary.search ∧ cs.missingInfo ≠ []
      · rw [if_pos hif] at hmem
        simp only [List.mem_singleton] at hmem
        exact clarify_ne_askFor (joinComma cs.missingInfo) hmem
      · rw [if_neg hif] at hmem
        simp at hmem
  · by_cases hif : 5 < context.conversationState.turnCount ∧ noSearchResults context = true
    · rw [if_pos hif] at hmem
      simp only [List.mem_singleton] at hmem
      exact absurd hmem (by decide)
    · rw [if_neg hif] at hmem
      simp at hmem

/-- C9: every confidence the heuristic produces is one of 0.7, 0.8, 0.85,
0.9 — hence at least 0.7 — so the CLARIFY_USER_INTENT instruction (which
requires confidence below 0.6) is never generated for a heuristic
intent, whatever the conversation context. -/
theorem confidence_floor_no_clarify :
    ∀ input : Str,
      ((analyzeUserIntent input).confidence = 0.7 ∨
       (analyzeUserIntent input).confidence = 0.8 ∨
       (analyzeUserIntent input).confidence = 0.85 ∨
       (analyzeUserIntent input).confidence = 0.9) ∧
      (0.7 : ℚ) ≤ (analyzeUserIntent input).confidence ∧
      ∀ context : ConversationContext,
        str "CLARIFY_USER_INTENT" ∉
          generateAgentInstructions context (analyzeUserIntent input) := by
  intro input
  have hc := confidence_cases input
  refine ⟨hc, ?_, ?_⟩
  · rcases hc with h | h | h | h <;> rw [h] <;> norm_num
  · intro context
    apply clarify_not_mem
    rcases hc with h | h | h | h <;> rw [h] <;> norm_num

/-- An empty conversation context (the constructor-initial state). -/
def initialContext : ConversationContext :=
  { userProfile := none, currentSearch := none, productsContext := none,
    conversationState :=
      { turnCount := 0, lastAgentAction := AgentAction.search,
        userSatisfaction := none, progressTowards := Progress.research } }

/-- Witness for C9 at a concrete input and context. -/
theorem confidence_floor_no_clarify_wit :
    str "CLARIFY_USER_INTENT" ∉
      generateAgentInstructions initialContext (analyzeUserIntent (str "hola")) :=
  (confidence_floor_no_clarify (str "hola")).2.2 initialContext

/-- A member of a list is a member of the list interspersed with a
separator. -/
theorem mem_intersperse_of_mem {α : Type} (sep : α) {a : α} :
    ∀ {l : List α}, a ∈ l → a ∈ l.intersperse sep
  | [], h => absurd h (List.not_mem_nil a)
  | [_], h => by simpa using h
  | b :: c :: t, h => by
    rw [List.intersperse_cons_cons]
    rcases List.mem_cons.mp h with rfl | h2
    · exact List.mem_cons_self ..
    · have h3 : a ∈ (c :: t).intersperse sep := mem_intersperse_of_mem sep h2
      exact List.mem_cons_of_mem _ (List.mem_cons_of_mem _ h3)

/-- A member of the joined list is an infix of its comma join. -/
theorem infix_joinComma_of_mem {x : Str} {l : List Str} (h : x ∈ l) :
    x <:+: joinComma l := by
  unfold joinComma
  exact List.infix_of_mem_flatten (mem_intersperse_of_mem (str ", ") h)

/-- C10: for every input classified as a search, the produced search
context lists `uso_principal` as missing information — the analyzer never
populates the features entity — and the generated instruction list
contains an instruction (the ASK_FOR one) mentioning `uso_principal`. -/
theorem search_missing_uso (input : Str) (prev : Option ConversationContext)
    (h : (analyzeUserIntent input).primary = Primary.search) :
    (analyzeUserIntent input).entities.features = none ∧
    ∃ cs, (updateConversationContext input (analyzeUserIntent input) prev).currentSearch
        = some cs ∧
      str "uso_principal" ∈ cs.missingInfo ∧
      ∃ ins ∈ generateAgentInstructions
          (updateConversationContext input (analyzeUserIntent input) prev)
          (analyzeUserIntent input),
        includes (str "uso_principal") ins = true := by
  have hfeat : (analyzeUserIntent input).entities.features = none := rfl
  have hfm : featuresAbsentOrEmpty (analyzeUserIntent input).entities = true := by
    unfold featuresAbsentOrEmpty
    rw [hfeat]
  have hmiss : str "uso_principal" ∈ identifyMissingInfo (analyzeUserIntent input) := by
    unfold identifyMissingInfo
    refine List.mem_append_right _ ?_
    rw [if_pos ⟨h, hfm⟩]
    exact List.mem_singleton_self _
  refine ⟨hfeat, ?_⟩
  refine ⟨{ category := (analyzeUserIntent input).entities.category
            criteria := extractCriteria input (analyzeUserIntent input)
            phase := determineSearchPhase
              ((updateConversationContext input (analyzeUserIntent input)
                prev).conversationState.turnCount)
            missingInfo := identifyMissingInfo (analyzeUserIntent input) }, ?_, hmiss, ?_⟩
  · simp [updateConversationContext, h]
  · refine ⟨str "ASK_FOR: " ++ joinComma (identifyMissingInfo (analyzeUserIntent input)),
      ?_, ?_⟩
    · have hcs : (updateConversationContext input (analyzeUserIntent input)
          prev).currentSearch = some
            { category := (analyzeUserIntent input).entities.category
              criteria := extractCriteria input (analyzeUserIntent input)
              phase := determineSearchPhase
                ((updateConversationContext input (analyzeUserIntent input)
                  prev).conversationState.turnCount)
              missingInfo := identifyMissingInfo (analyzeUserIntent input) } := by
        simp [updateConversationContext, h]
      unfold generateAgentInstructions
      simp only [hcs]
      rw [if_pos ⟨h, List.ne_nil_of_mem hmiss⟩]
      exact List.mem_append_left _ (List.mem_append_left _ (List.mem_singleton_self _))
    · rw [includes_iff]
      obtain ⟨s, t, hst⟩ := infix_joinComma_of_mem hmiss
      exact ⟨str "ASK_FOR: " ++ s, t, by rw [← hst]; simp [List.append_assoc]⟩

/-- Witness for C10: the empty input, which defaults to a search intent. -/
theorem search_missing_uso_wit :
    (analyzeUserIntent (str "")).entities.features = none ∧
    ∃ cs, (updateConversationContext (str "") (analyzeUserIntent (str "")) none).currentSearch
        = some cs ∧
      str "uso_principal" ∈ cs.missingInfo ∧
      ∃ ins ∈ generateAgentInstructions
          (updateConversationContext (str "") (analyzeUserIntent (str "")) none)
          (analyzeUserIntent (str "")),
        includes (str "uso_principal") ins = true :=
  search_missing_uso (str "") none (by decide)

/-- Unfolding: a call whose first attempt succeeds. -/
theorem sendMessageGo_ok {cfg rc fuel : Nat} {transport : Nat → Outcome}
    (h0 : transport 0 = Outcome.ok) :
    sendMessageGo cfg rc fuel transport =
      { success := true, error := none, attempts := 1, delaysMs := [],
        finalRetryCount := 0 } := by
  rw [sendMessageGo, h0]

/-- Unfolding: a failing first attempt that is not retried (either not
retryable or the counter has reached the cap). -/
theorem sendMessageGo_noretry {cfg rc fuel : Nat} {transport : Nat → Outcome} {e : JSError}
    (h0 : transport 0 = Outcome.err e)
    (hcond : ¬((analyzeError e).retryable = true ∧ rc < cfg)) :
    sendMessageGo cfg rc fuel transport =
      { success := false, error := some (analyzeError e), attempts := 1,
        delaysMs := [], finalRetryCount := rc } := by
  rw [sendMessageGo, h0]
  dsimp only
  rw [if_neg hcond]

/-- Unfolding: a retried failing first attempt. -/
theorem sendMessageGo_retry {cfg rc fuel : Nat} {transport : Nat → Outcome} {e : JSError}
    (h0 : transport 0 = Outcome.err e)
    (hret : (analyzeError e).retryable = true) (hrc : rc < cfg) :
    sendMessageGo cfg rc (fuel + 1) transport =
      (let rest := sendMessageGo cfg (rc + 1) fuel (shiftTransport transport)
       { success := rest.success, error := rest.error, attempts := rest.attempts + 1,
         delaysMs := (2 ^ (rc + 1) * 1000) :: rest.delaysMs,
         finalRetryCount := rest.finalRetryCount }) := by
  rw [sendMessageGo, h0]
  dsimp only
  rw [if_pos ⟨hret, hrc⟩]

/-- Unfolding: the out-of-fuel arm (unreachable through `sendMessage`). -/
theorem sendMessageGo_nofuel {cfg rc : Nat} {transport : Nat → Outcome} {e : JSError}
    (h0 : transport 0 = Outcome.err e)
    (hret : (analyzeError e).retryable = true) (hrc : rc < cfg) :
    sendMessageGo cfg rc 0 transport =
      { success := false, error := some (analyzeError e), attempts := 1,
        delaysMs := [], finalRetryCount := rc } := by
  rw [sendMessageGo, h0]
  dsimp only
  rw [if_pos ⟨hret, hrc⟩]

/-- Characterisation of the retry loop on a run of `m` retryably-failing
attempts followed by a success: every attempt up to `m` is made, each
retry `k` (1-based, counted from the entry counter `rc`) waits
`2 ^ (rc + k) * 1000` ms, and the counter ends at 0. -/
theorem sendMessageGo_chain (m : Nat) :
    ∀ (rc fuel cfg : Nat) (transport : Nat → Outcome),
    (∀ i, i < m → ∃ e, transport i = Outcome.err e ∧ (analyzeError e).retryable = true) →
    transport m = Outcome.ok →
    rc + m ≤ cfg → m ≤ fuel →
    sendMessageGo cfg rc fuel transport =
      { success := true, error := none, attempts := m + 1,
        delaysMs := (List.range m).map (fun k => 2 ^ (rc + 1 + k) * 1000),
        finalRetryCount := 0 } := by
  induction m with
  | zero =>
    intro rc fuel cfg transport _ hok _ _
    rw [sendMessageGo_ok hok]
    simp
  | succ n ih =>
    intro rc fuel cfg transport hfail hok hle hfuel
    obtain ⟨e, he, hret⟩ := hfail 0 (Nat.succ_pos n)
    have hrc : rc < cfg := by omega
    obtain ⟨f, rfl⟩ : ∃ f, fuel = f + 1 := ⟨fuel - 1, by omega⟩
    have hfail2 : ∀ i, i < n → ∃ e2, shiftTransport transport i = Outcome.err e2 ∧
        (analyzeError e2).retryable = true := fun i hi => hfail (i + 1) (by omega)
    have hok2 : shiftTransport transport n = Outcome.ok := hok
    rw [sendMessageGo_retry he hret hrc]
    rw [ih (rc + 1) f cfg (shiftTransport transport) hfail2 hok2 (by omega) (by omega)]
    have hmap : ((List.range n).map (fun k => 2 ^ (rc + 1 + 1 + k) * 1000))
        = (List.range n).map ((fun k => 2 ^ (rc + 1 + k) * 1000) ∘ Nat.succ) := by
      apply List.map_congr_left
      intro a _
      simp only [Function.comp]
      congr 1
      congr 1
      omega
    simp only [List.range_succ_eq_map, List.map_cons, List.map_map, hmap]

/-- The delays of a full retry chain started at counter 0 sum to
1000 times the sum of 2^1 .. 2^N. -/
theorem delays_sum (N : Nat) :
    ((List.range N).map (fun k => 2 ^ (0 + 1 + k) * 1000)).sum
      = 1000 * Finset.sum (Finset.Icc 1 N) (fun k => 2 ^ k) := by
  induction N with
  | zero => simp
  | succ n ih =>
    rw [List.range_succ, List.map_append, List.sum_append, ih,
        Finset.sum_Icc_succ_top (by omega)]
    simp only [List.map_cons, List.map_nil, List.sum_cons, List.sum_nil]
    ring

/-- C4: with max-retries N and counter 0, if attempts 1..N fail with
retryably-classified errors and attempt N+1 succeeds, `sendMessage`
resolves successfully after exactly N+1 attempts, waiting 2^k seconds
before retry k, so the total backoff is (at least) the sum of 2^1..2^N
seconds. -/
theorem retry_chain_success (N : Nat) (transport : Nat → Outcome)
    (hfail : ∀ i, i < N → ∃ e, transport i = Outcome.err e ∧
      (analyzeError e).retryable = true)
    (hok : transport N = Outcome.ok) :
    (sendMessage N 0 transport).success = true ∧
    (sendMessage N 0 transport).attempts = N + 1 ∧
    (sendMessage N 0 transport).delaysMs
      = (List.range N).map (fun k => 2 ^ (k + 1) * 1000) ∧
    1000 * Finset.sum (Finset.Icc 1 N) (fun k => 2 ^ k)
      ≤ (sendMessage N 0 transport).delaysMs.sum := by
  have hgo := sendMessageGo_chain N 0 (N - 0) N transport hfail hok (by omega) (by omega)
  unfold sendMessage
  rw [hgo]
  refine ⟨rfl, rfl, ?_, ?_⟩
  · apply List.map_congr_left
    intro a _
    congr 1
    congr 1
    omega
  · exact le_of_eq (delays_sum N).symm

/-- Transport for the C4 witness: two retryable HTTP 500 failures, then
success. -/
def witTransport : Nat → Outcome :=
  fun i => if i < 2 then Outcome.err (JSError.mk (str "HTTP_500: Internal Server Error"))
           else Outcome.ok

/-- Witness for C4 at N = 2. -/
theorem retry_chain_success_wit :
    (sendMessage 2 0 witTransport).success = true ∧
    (sendMessage 2 0 witTransport).attempts = 2 + 1 ∧
    (sendMessage 2 0 witTransport).delaysMs
      = (List.range 2).map (fun k => 2 ^ (k + 1) * 1000) ∧
    1000 * Finset.sum (Finset.Icc 1 2) (fun k => 2 ^ k)
      ≤ (sendMessage 2 0 witTransport).delaysMs.sum := by
  apply retry_chain_success
  · intro i hi
    exact ⟨JSError.mk (str "HTTP_500: Internal Server Error"),
      by simp [witTransport, hi], by decide⟩
  · decide

/-- Transport yielding an HTTP 400 whose status text smuggles in the word
`fetch`, so the network rule (checked first) fires instead of the 400
rule. -/
def cexHttp400Transport : Nat → Outcome :=
  fun i => if i = 0 then
    Outcome.err (JSError.mk (httpErrorMessage 400 (str "fetch failed")))
  else Outcome.ok

/-- Counterexample to C5 as stated: a call whose transport yields an HTTP
400 response (status text `fetch failed`) is classified `network` and
retryable, and `sendMessage` performs a retry (two attempts), not one. -/
theorem http400_retries_cex :
    (analyzeError (JSError.mk (httpErrorMessage 400 (str "fetch failed")))).type
      = ErrType.network ∧
    (analyzeError (JSError.mk (httpErrorMessage 400 (str "fetch failed")))).retryable
      = true ∧
    (sendMessage 3 0 cexHttp400Transport).attempts = 2 := by
  decide

/-- C5 (amended): for every call whose transport yields an HTTP 400
response whose composed error message `HTTP_400: <statusText>` contains
neither `fetch` nor `NetworkError`, the failure is classified
`validation`, not retryable, and `sendMessage` makes exactly one attempt,
returning the structured error response immediately — whatever the retry
configuration and counter state. -/
theorem http400_no_retry (cfg rc : Nat) (statusText : Str) (transport : Nat → Outcome)
    (h0 : transport 0 = Outcome.err (JSError.mk (httpErrorMessage 400 statusText)))
    (hfetch : includes (str "fetch") (httpErrorMessage 400 statusText) = false)
    (hnet : includes (str "NetworkError") (httpErrorMessage 400 statusText) = false) :
    (analyzeError (JSError.mk (httpErrorMessage 400 statusText))).type
      = ErrType.validation ∧
    (analyzeError (JSError.mk (httpErrorMessage 400 statusText))).retryable = false ∧
    (sendMessage cfg rc transport).attempts = 1 ∧
    (sendMessage cfg rc transport).success = false ∧
    (sendMessage cfg rc transport).error
      = some (analyzeError (JSError.mk (httpErrorMessage 400 statusText))) := by
  have hhttp : includes (str "HTTP_") (httpErrorMessage 400 statusText) = true := by
    rw [includes_iff]
    exact ⟨[], natToStr 400 ++ (str ": " ++ statusText),
      by simp [httpErrorMessage, List.append_assoc]⟩
  have hsc : (splitAfterFirst (str "HTTP_") (httpErrorMessage 400 statusText)).bind
      parseIntLeading = some 400 := rfl
  have hAE : analyzeError (JSError.mk (httpErrorMessage 400 statusText)) =
      { type := ErrType.validation, statusCode := some 400, retryable := false,
        userMessage := str "📝 Mensaje no válido. Intenta reformular tu pregunta.",
        technicalMessage := httpErrorMessage 400 statusText } := by
    simp only [analyzeError]
    rw [hfetch, hnet, hhttp, hsc]
    norm_num
  have hcond : ¬((analyzeError (JSError.mk (httpErrorMessage 400
      statusText))).retryable = true ∧ rc < cfg) := by
    rw [hAE]
    simp
  unfold sendMessage
  rw [sendMessageGo_noretry h0 hcond]
  exact ⟨by rw [hAE], by rw [hAE], rfl, rfl, rfl⟩

/-- Transport for the C5 witness: a plain HTTP 400 on every attempt. -/
def wit400Transport : Nat → Outcome :=
  fun _ => Outcome.err (JSError.mk (httpErrorMessage 400 (str "Bad Request")))

/-- Witness for the amended C5 at a concrete 400 response. -/
theorem http400_no_retry_wit :
    (analyzeError (JSError.mk (httpErrorMessage 400 (str "Bad Request")))).type
      = ErrType.validation ∧
    (analyzeError (JSError.mk (httpErrorMessage 400 (str "Bad Request")))).retryable
      = false ∧
    (sendMessage 3 0 wit400Transport).attempts = 1 ∧
    (sendMessage 3 0 wit400Transport).success = false ∧
    (sendMessage 3 0 wit400Transport).error
      = some (analyzeError (JSError.mk (httpErrorMessage 400 (str "Bad Request")))) := by
  apply http400_no_retry 3 0 (str "Bad Request") wit400Transport
  · rfl
  · decide
  · decide

/-- On success the retry counter is reset to zero, whatever the fuel. -/
theorem final_zero_of_success (fuel : Nat) :
    ∀ (cfg rc : Nat) (transport : Nat → Outcome),
    (sendMessageGo cfg rc fuel transport).success = true →
    (sendMessageGo cfg rc fuel transport).finalRetryCount = 0 := by
  induction fuel with
  | zero =>
    intro cfg rc transport hs
    cases h0 : transport 0 with
    | ok => rw [sendMessageGo_ok h0]
    | err e =>
      by_cases hcond : (analyzeError e).retryable = true ∧ rc < cfg
      · rw [sendMessageGo_nofuel h0 hcond.1 hcond.2] at hs
        simp at hs
      · rw [sendMessageGo_noretry h0 hcond] at hs
        simp at hs
  | succ f ih =>
    intro cfg rc transport hs
    cases h0 : transport 0 with
    | ok => rw [sendMessageGo_ok h0]
    | err e =>
      by_cases hcond : (analyzeError e).retryable = true ∧ rc < cfg
      · rw [sendMessageGo_retry h0 hcond.1 hcond.2] at hs ⊢
        exact ih cfg (rc + 1) (shiftTransport transport) hs
      · rw [sendMessageGo_noretry h0 hcond] at hs
        simp at hs

/-- On failure the retry counter never drops below its entry value. -/
theorem final_ge_of_failure (fuel : Nat) :
    ∀ (cfg rc : Nat) (transport : Nat → Outcome),
    (sendMessageGo cfg rc fuel transport).success = false →
    rc ≤ (sendMessageGo cfg rc fuel transport).finalRetryCount := by
  induction fuel with
  | zero =>
    intro cfg rc transport hs
    cases h0 : transport 0 with
    | ok =>
      rw [sendMessageGo_ok h0] at hs
      simp at hs
    | err e =>
      by_cases hcond : (analyzeError e).retryable = true ∧ rc < cfg
      · rw [sendMessageGo_nofuel h0 hcond.1 hcond.2]
      · rw [sendMessageGo_noretry h0 hcond]
  | succ f ih =>
    intro cfg rc transport hs
    cases h0 : transport 0 with
    | ok =>
      rw [sendMessageGo_ok h0] at hs
      simp at hs
    | err e =>
      by_cases hcond : (analyzeError e).retryable = true ∧ rc < cfg
      · rw [sendMessageGo_retry h0 hcond.1 hcond.2] at hs ⊢
        exact Nat.le_of_succ_le (ih cfg (rc + 1) (shiftTransport transport) hs)
      · rw [sendMessageGo_noretry h0 hcond]

/-- A call entered with the counter at the configured cap makes exactly
one attempt; if it fails, the counter stays at the cap. -/
theorem sendMessage_at_cap (cfg : Nat) (transport : Nat → Outcome) :
    (sendMessage cfg cfg transport).attempts = 1 ∧
    ((sendMessage cfg cfg transport).success = false →
      (sendMessage cfg cfg transport).finalRetryCount = cfg) := by
  unfold sendMessage
  cases h0 : transport 0 with
  | ok =>
    rw [sendMessageGo_ok h0]
    exact ⟨rfl, by intro h; simp at h⟩
  | err e =>
    have hcond : ¬((analyzeError e).retryable = true ∧ cfg < cfg) := by simp
    rw [sendMessageGo_noretry h0 hcond]
    exact ⟨rfl, fun _ => rfl⟩

/-- Along a call sequence started at the cap, every call preceded only by
failed calls makes exactly one attempt. -/
theorem runCalls_at_cap (cfg : Nat) :
    ∀ (ts : List (Nat → Outcome)) (pre : List SendResult) (r : SendResult)
      (post : List SendResult),
    runCalls cfg cfg ts = pre ++ r :: post →
    (∀ p ∈ pre, p.success = false) →
    r.attempts = 1 := by
  intro ts
  induction ts with
  | nil =>
    intro pre r post heq _
    simp [runCalls] at heq
  | cons t ts ih =>
    intro pre r post heq hpre
    rw [show runCalls cfg cfg (t :: ts)
        = sendMessage cfg cfg t
          :: runCalls cfg (sendMessage cfg cfg t).finalRetryCount ts from rfl] at heq
    cases pre with
    | nil =>
      simp only [List.nil_append, List.cons.injEq] at heq
      rw [← heq.1]
      exact (sendMessage_at_cap cfg t).1
    | cons p pre2 =>
      simp only [List.cons_append, List.cons.injEq] at heq
      obtain ⟨hp, hrest⟩ := heq
      have hpfail : (sendMessage cfg cfg t).success = false := by
        rw [hp]
        exact hpre p (List.mem_cons_self ..)
      rw [(sendMessage_at_cap cfg t).2 hpfail] at hrest
      exact ih pre2 r post hrest (fun q hq => hpre q (List.mem_cons_of_mem _ hq))

/-- Always-failing retryable transport (HTTP 500 on every attempt). -/
def cexFailT : Nat → Outcome :=
  fun _ => Outcome.err (JSError.mk (str "HTTP_500: boom"))

/-- Always-succeeding transport. -/
def cexOkT : Nat → Outcome := fun _ => Outcome.ok

/-- Transport failing retryably once, then succeeding. -/
def cexFailOkT : Nat → Outcome :=
  fun i => if i = 0 then Outcome.err (JSError.mk (str "HTTP_500: boom"))
           else Outcome.ok

/-- Counterexample to C6 as stated: with max-retries 1, call 1 exhausts
the budget (2 attempts, failure, counter left at 1 = cap), call 2
succeeds in one attempt and resets the counter, after which call 3 — a
subsequent call on the same instance — again performs a retry (2
attempts). -/
theorem retry_counter_cex :
    ((runCalls 1 0 [cexFailT, cexOkT, cexFailOkT]).map SendResult.attempts
      = [2, 1, 2]) ∧
    ((runCalls 1 0 [cexFailT, cexOkT, cexFailOkT]).map SendResult.success
      = [false, true, true]) ∧
    ((runCalls 1 0 [cexFailT, cexOkT, cexFailOkT]).map SendResult.finalRetryCount
      = [1, 0, 0]) := by
  decide

/-- C6 (amended): the per-instance retry counter is reset to zero only by
a successful attempt (a success resets it, a failure never lowers it);
a call entered with the counter at the configured maximum makes exactly
one attempt; consequently, after a call that exhausts the retry budget,
every subsequent call up to and including the first successful one makes
exactly one attempt — once a call succeeds the counter is back to zero
and later calls may retry again. -/
theorem retry_counter_policy :
    (∀ cfg rc transport, (sendMessage cfg rc transport).success = true →
      (sendMessage cfg rc transport).finalRetryCount = 0) ∧
    (∀ cfg rc transport, (sendMessage cfg rc transport).success = false →
      rc ≤ (sendMessage cfg rc transport).finalRetryCount) ∧
    (∀ cfg transport, (sendMessage cfg cfg transport).attempts = 1) ∧
    (∀ cfg ts pre r post,
      runCalls cfg cfg ts = pre ++ r :: post →
      (∀ p ∈ pre, p.success = false) →
      r.attempts = 1) := by
  refine ⟨?_, ?_, ?_, ?_⟩
  · intro cfg rc transport
    exact final_zero_of_success (cfg - rc) cfg rc transport
  · intro cfg rc transport
    exact final_ge_of_failure (cfg - rc) cfg rc transport
  · intro cfg transport
    exact (sendMessage_at_cap cfg transport).1
  · intro cfg ts pre r post
    exact runCalls_at_cap cfg ts pre r post

/-- Witness for the amended C6: with the counter at the cap (2), a
retryably-failing call still makes exactly one attempt. -/
theorem retry_counter_policy_wit :
    (sendMessage 2 2 cexFailOkT).attempts = 1 :=
  retry_counter_policy.2.2.2 2 [cexFailT, cexFailOkT] [sendMessage 2 2 cexFailT]
    (sendMessage 2 2 cexFailOkT) [] (by decide) (by decide)

/-- The revival map rebuilds each message unchanged (structure eta). -/
theorem map_reviveMessage (l : List Message) : l.map reviveMessage = l := by
  rw [show reviveMessage = id from rfl, List.map_id]

/-- C7: saving then immediately loading under the same session returns
exactly the last 50 messages saved (all of them when fewer than 50), each
timestamp surviving the serialisation round trip: the result equals
`drop (length - 50)`, is a suffix of the saved list, and has length
`min length 50`. -/
theorem save_load_last50 (gen1 gen2 : Str) (now : Nat) (messages : List Message)
    (st : Storage) :
    (loadChatHistory gen2 (saveChatHistory gen1 now messages st)).1
      = messages.drop (messages.length - 50) ∧
    (loadChatHistory gen2 (saveChatHistory gen1 now messages st)).1.length
      = min messages.length 50 ∧
    (loadChatHistory gen2 (saveChatHistory gen1 now messages st)).1 <:+ messages := by
  have hmain : (loadChatHistory gen2 (saveChatHistory gen1 now messages st)).1
      = sliceLast50 messages := by
    unfold saveChatHistory loadChatHistory getSessionId
    cases hsid : st.sessionId with
    | some s => simp [hsid, map_reviveMessage]
    | none => simp [hsid, map_reviveMessage]
  refine ⟨hmain, ?_, ?_⟩
  · rw [hmain]
    unfold sliceLast50
    rw [List.length_drop]
    omega
  · rw [hmain]
    exact List.drop_suffix _ _

/-- C8: a load returns a non-empty list only when the stored record
carries the current session id; a stored record under a different id than
the current one loads as empty even though it is physically present;
`resetSession` installs the fresh id and deletes the history record; and
a load right after a reset is empty. -/
theorem session_guard_and_reset :
    (∀ st gen, (loadChatHistory gen st).1 ≠ [] →
      ∃ h, st.history = some h ∧ h.sessionId = (getSessionId gen st).1) ∧
    (∀ st gen h s, st.history = some h → st.sessionId = some s →
      h.sessionId ≠ s → (loadChatHistory gen st).1 = []) ∧
    (∀ st fresh, (resetSession fresh st).sessionId = some fresh ∧
      (resetSession fresh st).history = none) ∧
    (∀ st fresh gen, (loadChatHistory gen (resetSession fresh st)).1 = []) := by
  refine ⟨?_, ?_, ?_, ?_⟩
  · intro st gen hne
    unfold loadChatHistory at hne
    cases hh : st.history with
    | none =>
      rw [hh] at hne
      simp at hne
    | some h =>
      rw [hh] at hne
      dsimp only at hne
      by_cases hg : h.sessionId = (getSessionId gen st).1
      · exact ⟨h, rfl, hg⟩
      · rw [if_neg hg] at hne
        simp at hne
  · intro st gen h s hh hsid hne
    simp [loadChatHistory, getSessionId, hh, hsid, hne]
  · intro st fresh
    exact ⟨rfl, rfl⟩
  · intro st fresh gen
    rfl

/-- A concrete stored message for the C8 witness. -/
def wMsg : Message :=
  { id := str "m1", text := str "hola", sender := Sender.user,
    timestamp := 1700000000000, confidence := none, responseTime := none,
    suggestions := none, isError := none, products := none }

/-- Storage whose history record matches the current session id. -/
def wStore : Storage :=
  { sessionId := some (str "sid"),
    history := some { sessionId := str "sid", messages := [wMsg], lastUpdated := 0 } }

/-- Storage whose history record was written under a prior session id. -/
def wStoreMismatch : Storage :=
  { sessionId := some (str "new"),
    history := some { sessionId := str "old", messages := [wMsg], lastUpdated := 0 } }

/-- Witness for C8: a matching store loads non-empty (so the guard names
its id), and a physically present record under a stale id loads empty. -/
theorem session_guard_and_reset_wit :
    (∃ h, wStore.history = some h ∧ h.sessionId = (getSessionId (str "g") wStore).1) ∧
    (loadChatHistory (str "g") wStoreMismatch).1 = [] := by
  constructor
  · exact session_guard_and_reset.1 wStore (str "g") (by decide)
  · exact session_guard_and_reset.2.1 wStoreMismatch (str "g")
      { sessionId := str "old", messages := [wMsg], lastUpdated := 0 } (str "new")
      (by decide) (by decide) (by decide)

end Alkosto
